import Mathlib

/-!
# blobbit: flag resolution and blob submission

A shallow embedding of `cmd/blobbit/main.go`.

* Go strings are `String`, byte slices are `List UInt8`.
* A Go `(value, error)` result is a pair of `Option`s (`none` is Go's `nil`),
  or an `Except` where the library returns exactly one of the two.
* A Go panic is the constructor `Exec.panic`.
* Flag sets, commands and contexts (pflag, cobra, `context`) are modelled by the
  fields and methods the program uses.
* The calls into the keyring, grpc and the celestia-app client are the fields of
  `World`; the calls `DemoSubmitData` makes are recorded, in order, as a list of
  `Event`s.
-/

set_option autoImplicit false

namespace Blobbit

/-! ## Go control flow -/

/-- Result of running Go code that may panic. -/
inductive Exec (α : Type) where
  /-- The code ran to its `return`. -/
  | done (a : α)
  /-- The code panicked (nil dereference, failed type assertion, `panic(err)`). -/
  | panic
deriving DecidableEq, Repr

/-- A Go `error` value, identified by its message. -/
abbrev Err := String

/-! ## pflag -/

/-- The fields of a `pflag.Flag` that the program reads. -/
structure Flag where
  Name : String
  DefValue : String
  Value : String
  Changed : Bool
deriving DecidableEq, Repr

/-- A `pflag.FlagSet`: its flags in the order they were defined. -/
structure FlagSet where
  formal : List Flag
deriving DecidableEq, Repr

/-- The zero flag set, `&flag.FlagSet{}`. -/
def FlagSet.empty : FlagSet := ⟨[]⟩

/-- The method `Lookup` of a flag set: the flag of that name, `none` for Go's nil. -/
def FlagSet.Lookup (f : FlagSet) (name : String) : Option Flag :=
  f.formal.find? (fun fl => decide (fl.Name = name))

/-- The method `String(name, value, usage)` of a flag set: defines a string flag
whose value and default are `value`. pflag panics when the name is already
defined. -/
def FlagSet.StringFlag (f : FlagSet) (name value : String) : Exec FlagSet :=
  match f.Lookup name with
  | some _ => .panic
  | none => .done ⟨f.formal ++ [{ Name := name, DefValue := value, Value := value, Changed := false }]⟩

/-- The method `Set(name, value)` of a flag set, what parsing `--name=value`
does: the flag takes the value and is marked `Changed`. -/
def FlagSet.Set (f : FlagSet) (name value : String) : FlagSet :=
  ⟨f.formal.map (fun fl => if fl.Name = name then { fl with Value := value, Changed := true } else fl)⟩

/-- The method `AddFlagSet(newSet)` of a flag set: adds the flags of `newSet`
whose name is not yet present. -/
def FlagSet.AddFlagSet (f newSet : FlagSet) : FlagSet :=
  newSet.formal.foldl
    (fun acc fl => match acc.Lookup fl.Name with
      | some _ => acc
      | none => ⟨acc.formal ++ [fl]⟩)
    f

/-! ## Constants and configuration -/

def nodeStoreFlag : String := "node.store"
def coreFlag : String := "core.ip"
def coreRPCFlag : String := "core.rpc.port"
def coreGRPCFlag : String := "core.grpc.port"
def blobNamespaceFlag : String := "blob.namespace"
def blobDataFlag : String := "blob.data"

/-- CoreConfig combines all configuration fields for managing the relationship
with a Core node. -/
structure CoreConfig where
  IP : String
  RPCPort : String
  GRPCPort : String
deriving DecidableEq, Repr

/-! ## context.Context -/

/-- Keys of context values: the two key types of the program, and any other. -/
inductive CtxKey where
  | storePathKey
  | coreConfigKey
  | other (n : Nat)
deriving DecidableEq, Repr

/-- Dynamically typed context values (`interface{}`). -/
inductive CtxVal where
  | str (s : String)
  | coreConfig (c : CoreConfig)
  | other (n : Nat)
deriving DecidableEq, Repr

/-- A non-nil `context.Context`: its key/value pairs, the latest first.
`context.Background()` is the empty list. -/
abbrev Context := List (CtxKey × CtxVal)

/-- The call `ctx.Value(key)`: the latest value stored under the key, `none` for
nil. -/
def Context.Value (ctx : Context) (key : CtxKey) : Option CtxVal :=
  (ctx.find? (fun kv => decide (kv.1 = key))).map Prod.snd

/-- The call `context.WithValue(ctx, key, val)`. -/
def Context.WithValue (ctx : Context) (key : CtxKey) (val : CtxVal) : Context :=
  (key, val) :: ctx

/-! ## cobra -/

/-- A `cobra.Command` as far as flags go: its own flag set and the persistent
flags it inherits from its parents. cobra adds the package-level
`pflag.CommandLine` set to the root's persistent flags. -/
structure Command where
  flags : FlagSet
  parentsPflags : FlagSet
  /-- The command's context, `none` for nil; read by `Context()`, written by
  `SetContext`. -/
  ctx : Option Context := none
deriving DecidableEq, Repr

/-- The method `Flag(name)` of a command: looks the flag up in the command's own
set, then in the inherited persistent flags; `none` for Go's nil. -/
def Command.Flag (c : Command) (name : String) : Option Flag :=
  match c.flags.Lookup name with
  | some fl => some fl
  | none => c.parentsPflags.Lookup name

/-! ## The program -/

/-- NodeFlags gives a set of hardcoded Node package flags. The first four flags
are defined on the local set `flags`; the last two calls are `flag.String`, the
package-level function of pflag, which defines the flag on `pflag.CommandLine`.
Takes the current `pflag.CommandLine` and returns the local set together with
the updated `pflag.CommandLine`. -/
def NodeFlags (commandLine : FlagSet) : Exec (FlagSet × FlagSet) :=
  let flags := FlagSet.empty
  match flags.StringFlag nodeStoreFlag "" with
  | .panic => .panic
  | .done flags =>
  match flags.StringFlag coreFlag "" with
  | .panic => .panic
  | .done flags =>
  match flags.StringFlag coreRPCFlag "26657" with
  | .panic => .panic
  | .done flags =>
  match flags.StringFlag coreGRPCFlag "9090" with
  | .panic => .panic
  | .done flags =>
  match commandLine.StringFlag blobNamespaceFlag "1234567890" with
  | .panic => .panic
  | .done commandLine =>
  match commandLine.StringFlag blobDataFlag "some data" with
  | .panic => .panic
  | .done commandLine => .done (flags, commandLine)

/-- StorePath reads the store path from the context; the type assertion
`.(string)` panics on nil and on a value of another type. -/
def StorePath (ctx : Context) : Exec String :=
  match ctx.Value .storePathKey with
  | some (.str s) => .done s
  | _ => .panic

/-- WithStorePath sets Store Path in the given context. -/
def WithStorePath (ctx : Context) (storePath : String) : Context :=
  ctx.WithValue .storePathKey (.str storePath)

/-- ParseCoreConfig reads the core config from the context; the type assertion
`.(CoreConfig)` panics on nil and on a value of another type. -/
def ParseCoreConfig (ctx : Context) : Exec CoreConfig :=
  match ctx.Value .coreConfigKey with
  | some (.coreConfig c) => .done c
  | _ => .panic

/-- WithCoreConfig sets the node config in the Env. -/
def WithCoreConfig (ctx : Context) (config : CoreConfig) : Context :=
  ctx.WithValue .coreConfigKey (.coreConfig config)

/-- ParseFlags parses Node flags from the given cmd and applies values to Env.
Returns Go's pair `(context, error)`; dereferencing a flag the command does not
have panics, and so does `context.WithValue` on a nil context. -/
def ParseFlags (ctx : Option Context) (cmd : Command) : Exec (Option Context × Option Err) :=
  match cmd.Flag nodeStoreFlag with
  | none => .panic
  | some storeFl =>
  let store := storeFl.Value
  if store = "" then
    .done (none, some "must specify a node store path")
  else
  match ctx with
  | none => .panic
  | some ctx =>
  let ctx := WithStorePath ctx store
  match cmd.Flag coreFlag with
  | none => .panic
  | some coreFl =>
  let coreIP := coreFl.Value
  if coreIP = "" then
    match cmd.Flag coreGRPCFlag with
    | none => .panic
    | some grpcFl =>
    if grpcFl.Changed then
      .done (none, some "cannot specify RPC/gRPC ports without specifying an IP address for --core.ip")
    else
    match cmd.Flag coreRPCFlag with
    | none => .panic
    | some rpcFl =>
    if rpcFl.Changed then
      .done (none, some "cannot specify RPC/gRPC ports without specifying an IP address for --core.ip")
    else
      .done (some ctx, none)
  else
  match cmd.Flag coreRPCFlag with
  | none => .panic
  | some rpcFl =>
  match cmd.Flag coreGRPCFlag with
  | none => .panic
  | some grpcFl =>
  let cfg : CoreConfig := { IP := coreIP, RPCPort := rpcFl.Value, GRPCPort := grpcFl.Value }
  let ctx := WithCoreConfig ctx cfg
  .done (some ctx, none)

/-- The submit command as `init` builds it, `Submit(NodeFlags())` added to the
root command: the sets passed in are added to the command's own flags, and the
command inherits `pflag.CommandLine`. -/
def Submit (commandLine : FlagSet) (fsets : List FlagSet) : Command :=
  { flags := fsets.foldl FlagSet.AddFlagSet FlagSet.empty, parentsPflags := commandLine }

/-- The function `init`, run on an empty `pflag.CommandLine`: builds the submit
command from `NodeFlags()` and adds it to the root command. Returns the submit
command. -/
def init : Exec Command :=
  match NodeFlags FlagSet.empty with
  | .panic => .panic
  | .done (flags, commandLine) => .done (Submit commandLine [flags])

/-- Parsing `--name=value` on a command: the flag is set where it is defined. -/
def Command.Set (c : Command) (name value : String) : Command :=
  match c.flags.Lookup name with
  | some _ => { c with flags := c.flags.Set name value }
  | none => { c with parentsPflags := c.parentsPflags.Set name value }

/-! ## The services the submit flow calls -/

/-- A keyring handle (`keyring.Keyring`). -/
structure Keyring where
  id : Nat
deriving DecidableEq, Repr

/-- A key record of the keyring (`*keyring.Record`). -/
structure Record where
  id : Nat
deriving DecidableEq, Repr

/-- An account address (`sdk.AccAddress`). -/
structure Address where
  bytes : List UInt8
deriving DecidableEq, Repr

/-- An open gRPC client connection (`*grpc.ClientConn`). -/
structure Conn where
  id : Nat
deriving DecidableEq, Repr

/-- A transaction signer (`*user.Signer`). -/
structure Signer where
  id : Nat
deriving DecidableEq, Repr

/-- A namespace (`namespace.Namespace`). -/
structure Namespace where
  Version : Nat
  ID : List UInt8
deriving DecidableEq, Repr

/-- A blob (`tmproto.Blob`). -/
structure Blob where
  NamespaceId : List UInt8
  Data : List UInt8
  ShareVersion : Nat
deriving DecidableEq, Repr

/-- The fields of `sdk.TxResponse` that the program reads. -/
structure TxResponse where
  Code : Nat
  Codespace : String
  RawLog : String
deriving DecidableEq, Repr

/-- The library calls of the submit flow, each with the result it gives for
its arguments. A call that returns `(value, error)` gives an `Except`;
`MustNewV0` has no error result and panics instead. -/
structure World where
  /-- The call `keyring.New(app.Name, keyring.BackendTest, rootDir, os.Stdin, codec)`. -/
  keyringNew : String → Except Err Keyring
  /-- The call `namespace.MustNewV0(id)`. -/
  MustNewV0 : List UInt8 → Exec Namespace
  /-- The call `blobtypes.NewBlob(ns, data, appconsts.ShareVersionZero)`. -/
  NewBlob : Namespace → List UInt8 → Except Err Blob
  /-- The call `grpc.Dial(target, opts)`. -/
  Dial : String → Except Err Conn
  /-- The call `kr.Key(uid)`. -/
  Key : Keyring → String → Except Err Record
  /-- The call `rec.GetAddress()`. -/
  GetAddress : Record → Except Err Address
  /-- The call `user.SetupSigner(ctx, kr, conn, addr, ecfg)`. -/
  SetupSigner : Keyring → Conn → Address → Except Err Signer
  /-- The call `blobtypes.DefaultEstimateGas(blobSizes)`, sizes `uint32`, result
  `uint64`. -/
  DefaultEstimateGas : List Nat → Nat
  /-- The call `signer.SubmitPayForBlob(ctx, blobs, user.SetGasLimitAndFee(gasLimit, 0.1))`. -/
  SubmitPayForBlob : Signer → List Blob → Nat → Except Err TxResponse

/-- What `DemoSubmitData` does to the outside, in the order it does it. -/
inductive Event where
  | dial (target : String)
  | key (kr : Keyring) (uid : String)
  | getAddress (rec : Record)
  | setupSigner (kr : Keyring) (conn : Conn) (addr : Address)
  | submitPayForBlob (signer : Signer) (blobs : List Blob) (gasLimit : Nat)
  | println (code : Nat) (codespace rawLog : String)
  | dump (resp : TxResponse)
  | connClose (conn : Conn)
deriving DecidableEq, Repr

/-- The conversion `[]byte(s)`. -/
def bytesOf (s : String) : List UInt8 := s.toUTF8.toList

/-- The gas limit of `DemoSubmitData` for a payload of `len` bytes, with `est`
for `blobtypes.DefaultEstimateGas`: `est([]uint32{uint32(len(blob.Data))})`,
where the conversion of the `int` length to `uint32` keeps the low 32 bits. -/
def gasLimit (est : List Nat → Nat) (len : Nat) : Nat :=
  est [len % 2 ^ 32]

/-- The part of `DemoSubmitData` from the line after `defer conn.Close()` to its return:
the events made and the error returned. -/
def DemoSubmitData.afterDial (w : World) (kr : Keyring) (conn : Conn) (blob : Blob) :
    List Event × Option Err :=
  match w.Key kr "my_celes_key" with
  | .error err => ([.key kr "my_celes_key"], some err)
  | .ok rec =>
  match w.GetAddress rec with
  | .error err => ([.key kr "my_celes_key", .getAddress rec], some err)
  | .ok addr =>
  match w.SetupSigner kr conn addr with
  | .error err => ([.key kr "my_celes_key", .getAddress rec, .setupSigner kr conn addr], some err)
  | .ok signer =>
  let gas := gasLimit w.DefaultEstimateGas blob.Data.length
  match w.SubmitPayForBlob signer [blob] gas with
  | .error err =>
    ([.key kr "my_celes_key", .getAddress rec, .setupSigner kr conn addr,
      .submitPayForBlob signer [blob] gas], some err)
  | .ok resp =>
    -- `return err` at the end: `err` is nil after the check above
    ([.key kr "my_celes_key", .getAddress rec, .setupSigner kr conn addr,
      .submitPayForBlob signer [blob] gas]
      ++ (if resp.Code ≠ 0 then [.println resp.Code resp.Codespace resp.RawLog] else [])
      ++ [.dump resp], none)

/-- DemoSubmitData shows how to use the signer to submit data to the blockchain
directly via a celestia node. Returns the events made and the error returned.
The deferred `conn.Close()` runs when the function returns. -/
def DemoSubmitData (w : World) (grpcAddr : String) (kr : Keyring) (_ns : Namespace)
    (blob : Blob) : List Event × Option Err :=
  match w.Dial grpcAddr with
  | .error err => ([.dial grpcAddr], some err)
  | .ok conn =>
    let r := DemoSubmitData.afterDial w kr conn blob
    (.dial grpcAddr :: r.1 ++ [.connClose conn], r.2)

/-- PersistentPreRunEnv: resolves the flags into the command's context. Returns
the command and the error. -/
def PersistentPreRunEnv (cmd : Command) : Exec (Command × Option Err) :=
  match ParseFlags cmd.ctx cmd with
  | .panic => .panic
  | .done (_, some err) => .done (cmd, some err)
  | .done (ctx, none) => .done ({ cmd with ctx := ctx }, none)

/-- The `RunE` handler of the submit command. -/
def SubmitRunE (w : World) (cmd : Command) : Exec (List Event × Option Err) :=
  match cmd.ctx with
  | none => .panic
  | some ctx =>
  match StorePath ctx with
  | .panic => .panic
  | .done storePath =>
  match w.keyringNew storePath with
  | .error _ => .panic
  | .ok ring =>
  match ParseCoreConfig ctx with
  | .panic => .panic
  | .done cfg =>
  match cmd.Flag blobNamespaceFlag with
  | none => .panic
  | some nsFl =>
  match w.MustNewV0 (bytesOf nsFl.Value) with
  | .panic => .panic
  | .done ns =>
  match cmd.Flag blobDataFlag with
  | none => .panic
  | some dataFl =>
  match w.NewBlob ns (bytesOf dataFl.Value) with
  | .error _ => .panic
  | .ok blob => .done (DemoSubmitData w (cfg.IP ++ ":" ++ cfg.GRPCPort) ring ns blob)

/-- The function `run` for an invocation of the submit command whose flags cobra has parsed
into `cmd`: `rootCmd.ExecuteContext(context.Background())` runs the command's
`PersistentPreRunE`, returns its error if there is one, and runs `RunE`. -/
def run (w : World) (cmd : Command) : Exec (List Event × Option Err) :=
  let cmd := { cmd with ctx := some [] }
  match PersistentPreRunEnv cmd with
  | .panic => .panic
  | .done (_, some err) => .done ([], some err)
  | .done (cmd, none) => SubmitRunE w cmd

/-- How the process ends. -/
inductive ProcessEnd where
  /-- The process exits with this code. -/
  | exit (code : Nat)
  /-- The process is ended by a panic nothing recovers. -/
  | panic
deriving DecidableEq, Repr

/-- The function `main`: `os.Exit(1)` when `run` returns an error, a normal
return (exit code 0) otherwise. -/
def main (w : World) (cmd : Command) : ProcessEnd :=
  match run w cmd with
  | .panic => .panic
  | .done (_, some _) => .exit 1
  | .done (_, none) => .exit 0

/-! ## Observations on the events -/

/-- Whether the event is a call of `SubmitPayForBlob`. -/
def Event.isSubmit : Event → Bool
  | .submitPayForBlob _ _ _ => true
  | _ => false

/-- Whether the event is the closing of a connection. -/
def Event.isConnClose : Event → Bool
  | .connClose _ => true
  | _ => false

/-! ## The gas estimate of the library -/

/-- Modelled from the spec: the shares a blob of `sequenceLen` bytes occupies,
which the gas estimate of the celestia-app library charges for; the library is
outside the repository and the spec leaves the formula to it. The first share
of a blob holds 478 bytes, each further share 482. -/
def SparseSharesNeeded (sequenceLen : Nat) : Nat :=
  if sequenceLen = 0 then 0
  else if sequenceLen < 478 then 1
  else 1 + (sequenceLen - 478 + 481) / 482

/-- Modelled from the spec: `blobtypes.DefaultEstimateGas` of the celestia-app
library, which is outside the repository. The spec has it "a function of total
payload size (monotonic, deterministic given size)"; this is the linear model
of the library: 8 gas for each byte of the 512-byte shares the blobs occupy, 10
gas for each of the 70 bytes of a blob's entry in the transaction, and a fixed
75000. -/
def DefaultEstimateGas (blobSizes : List Nat) : Nat :=
  (blobSizes.map SparseSharesNeeded).sum * 512 * 8 + 10 * 70 * blobSizes.length + 75000

/-! ## Sample inputs -/

/-- The submit command of `init` with every flag at its default. -/
def baseCmd : Command :=
  { flags := ⟨[⟨"node.store", "", "", false⟩, ⟨"core.ip", "", "", false⟩,
      ⟨"core.rpc.port", "26657", "26657", false⟩, ⟨"core.grpc.port", "9090", "9090", false⟩]⟩,
    parentsPflags := ⟨[⟨"blob.namespace", "1234567890", "1234567890", false⟩,
      ⟨"blob.data", "some data", "some data", false⟩]⟩ }

/-- The submit command after `--node.store=/tmp/x --core.ip=1.2.3.4`. -/
def sampleCmd : Command :=
  (baseCmd.Set nodeStoreFlag "/tmp/x").Set coreFlag "1.2.3.4"

/-- A world in which every call succeeds and the node answers with code 5. -/
def okWorld : World :=
  { keyringNew := fun _ => .ok ⟨0⟩
    MustNewV0 := fun id => .done ⟨0, id⟩
    NewBlob := fun ns data => .ok ⟨ns.ID, data, 0⟩
    Dial := fun _ => .ok ⟨0⟩
    Key := fun _ _ => .ok ⟨0⟩
    GetAddress := fun _ => .ok ⟨[]⟩
    SetupSigner := fun _ _ _ => .ok ⟨0⟩
    DefaultEstimateGas := DefaultEstimateGas
    SubmitPayForBlob := fun _ _ _ => .ok ⟨5, "sdk", "insufficient fee"⟩ }

/-- A world in which the key store cannot be opened. -/
def noKeyringWorld : World :=
  { okWorld with keyringNew := fun _ => .error "cannot open the key store" }

/-- A world in which the keyring has no key of the name asked for. -/
def noKeyWorld : World :=
  { okWorld with Key := fun _ _ => .error "key not found" }

/-- A blob of three bytes. -/
def sampleBlob : Blob := ⟨[], [1, 2, 3], 0⟩

/-! ## Flag resolution -/

/-- The local flag set `NodeFlags` returns, whatever `pflag.CommandLine` holds. -/
theorem NodeFlags_flags (commandLine flags commandLine' : FlagSet)
    (h : NodeFlags commandLine = .done (flags, commandLine')) :
    flags = ⟨[⟨"node.store", "", "", false⟩, ⟨"core.ip", "", "", false⟩,
      ⟨"core.rpc.port", "26657", "26657", false⟩, ⟨"core.grpc.port", "9090", "9090", false⟩]⟩ := by
  unfold NodeFlags at h
  simp only [FlagSet.StringFlag, FlagSet.Lookup, FlagSet.empty, nodeStoreFlag, coreFlag,
    coreRPCFlag, coreGRPCFlag] at h
  simp at h
  split at h
  · cases h
  · split at h
    · cases h
    · injection h with h
      injection h with h1 h2
      exact h1.symm

/-- C1: on a command that has the four node flags, `ParseFlags` returns an error
exactly when the value of node.store is empty, or the value of core.ip is empty
and core.rpc.port or core.grpc.port is marked `Changed`; in every other case it
returns a context and no error. -/
theorem ParseFlags_error_iff (ctx : Context) (cmd : Command)
    (storeFl coreFl rpcFl grpcFl : Flag)
    (hs : cmd.Flag nodeStoreFlag = some storeFl) (hc : cmd.Flag coreFlag = some coreFl)
    (hr : cmd.Flag coreRPCFlag = some rpcFl) (hg : cmd.Flag coreGRPCFlag = some grpcFl) :
    ((∃ c err, ParseFlags (some ctx) cmd = .done (c, some err)) ↔
      (storeFl.Value = "" ∨
        (coreFl.Value = "" ∧ (rpcFl.Changed = true ∨ grpcFl.Changed = true)))) ∧
    (¬ (storeFl.Value = "" ∨
        (coreFl.Value = "" ∧ (rpcFl.Changed = true ∨ grpcFl.Changed = true))) →
      ∃ c, ParseFlags (some ctx) cmd = .done (some c, none)) := by
  unfold ParseFlags
  simp only [hs, hc, hr, hg]
  by_cases h1 : storeFl.Value = "" <;> by_cases h2 : coreFl.Value = "" <;>
    by_cases h3 : grpcFl.Changed = true <;> by_cases h4 : rpcFl.Changed = true <;>
    simp [h1, h2, h3, h4]

/-- C1 at `--node.store=/tmp/x --core.grpc.port=9999` without core.ip: an error. -/
theorem ParseFlags_error_iff_witness :
    ∃ c err, ParseFlags (some [])
      ((baseCmd.Set nodeStoreFlag "/tmp/x").Set coreGRPCFlag "9999") = .done (c, some err) :=
  (ParseFlags_error_iff [] ((baseCmd.Set nodeStoreFlag "/tmp/x").Set coreGRPCFlag "9999")
    ⟨"node.store", "", "/tmp/x", true⟩ ⟨"core.ip", "", "", false⟩
    ⟨"core.rpc.port", "26657", "26657", false⟩ ⟨"core.grpc.port", "9090", "9999", true⟩
    (by decide) (by decide) (by decide) (by decide)).1.mpr (Or.inr ⟨rfl, Or.inr rfl⟩)

/-- C6: when the value of node.store is empty, `ParseFlags` returns the error
"must specify a node store path" and a nil context, whatever the other flags
are (also with core.ip empty and a port flag changed). -/
theorem ParseFlags_empty_store (ctx : Context) (cmd : Command) (storeFl : Flag)
    (hs : cmd.Flag nodeStoreFlag = some storeFl) (hv : storeFl.Value = "") :
    ParseFlags (some ctx) cmd = .done (none, some "must specify a node store path") := by
  unfold ParseFlags
  simp only [hs, hv, if_true]

/-- C6 at `--core.grpc.port=9999` with neither node.store nor core.ip. -/
theorem ParseFlags_empty_store_witness :
    ParseFlags (some []) (baseCmd.Set coreGRPCFlag "9999")
      = .done (none, some "must specify a node store path") :=
  ParseFlags_empty_store [] (baseCmd.Set coreGRPCFlag "9999") ⟨"node.store", "", "", false⟩
    (by decide) rfl

/-- C2: with a non-empty store path and a non-empty core.ip, `ParseFlags`
succeeds and the context it returns gives the store path to `StorePath` and the
IP with the values of core.rpc.port and core.grpc.port to `ParseCoreConfig`; on
the command built from `NodeFlags` with only node.store and core.ip set, the
ports are "26657" and "9090". -/
theorem ParseFlags_resolves_config (ctx : Context) :
    (∀ (cmd : Command) (storeFl coreFl rpcFl grpcFl : Flag),
      cmd.Flag nodeStoreFlag = some storeFl → cmd.Flag coreFlag = some coreFl →
      cmd.Flag coreRPCFlag = some rpcFl → cmd.Flag coreGRPCFlag = some grpcFl →
      storeFl.Value ≠ "" → coreFl.Value ≠ "" →
      ∃ c, ParseFlags (some ctx) cmd = .done (some c, none) ∧ StorePath c = .done storeFl.Value ∧
        ParseCoreConfig c = .done ⟨coreFl.Value, rpcFl.Value, grpcFl.Value⟩) ∧
    (∀ (commandLine flags commandLine' : FlagSet) (s h : String),
      NodeFlags commandLine = .done (flags, commandLine') → s ≠ "" → h ≠ "" →
      ∃ c, ParseFlags (some ctx) (((Submit commandLine' [flags]).Set nodeStoreFlag s).Set coreFlag h)
          = .done (some c, none) ∧
        StorePath c = .done s ∧ ParseCoreConfig c = .done ⟨h, "26657", "9090"⟩) := by
  constructor
  · intro cmd storeFl coreFl rpcFl grpcFl hs hc hr hg h1 h2
    refine ⟨WithCoreConfig (WithStorePath ctx storeFl.Value)
      ⟨coreFl.Value, rpcFl.Value, grpcFl.Value⟩, ?_, ?_, ?_⟩
    · unfold ParseFlags
      simp only [hs, hc, hr, hg, h1, h2, if_false]
    · simp [StorePath, WithCoreConfig, WithStorePath, Context.WithValue, Context.Value]
    · simp [ParseCoreConfig, WithCoreConfig, WithStorePath, Context.WithValue, Context.Value]
  · intro cl fs cl' s h hnf hs hh
    have hfs := NodeFlags_flags cl fs cl' hnf
    subst hfs
    refine ⟨WithCoreConfig (WithStorePath ctx s) ⟨h, "26657", "9090"⟩, ?_, ?_, ?_⟩
    · simp [ParseFlags, Submit, FlagSet.AddFlagSet, FlagSet.empty, Command.Set, FlagSet.Set,
        FlagSet.Lookup, Command.Flag, nodeStoreFlag, coreFlag, coreRPCFlag, coreGRPCFlag, hs, hh]
    · simp [StorePath, WithCoreConfig, WithStorePath, Context.WithValue, Context.Value]
    · simp [ParseCoreConfig, WithCoreConfig, WithStorePath, Context.WithValue, Context.Value]

/-- C2 at store "/tmp/x" and core.ip "1.2.3.4" with the ports unset. -/
theorem ParseFlags_resolves_config_witness :
    ∃ c, ParseFlags (some []) (((Submit baseCmd.parentsPflags [baseCmd.flags]).Set nodeStoreFlag
          "/tmp/x").Set coreFlag "1.2.3.4") = .done (some c, none) ∧
      StorePath c = .done "/tmp/x" ∧ ParseCoreConfig c = .done ⟨"1.2.3.4", "26657", "9090"⟩ :=
  (ParseFlags_resolves_config []).2 FlagSet.empty baseCmd.flags baseCmd.parentsPflags
    "/tmp/x" "1.2.3.4" (by decide) (by decide) (by decide)

/-- C3: with `--node.store=/tmp/x` and core.ip unset, `ParseFlags` succeeds on
the command of `init`, `StorePath` reads the store path from the context it
returns, and `ParseCoreConfig` panics on that context, so that the process ends
in a panic whatever the services answer. -/
theorem ParseCoreConfig_panics_without_core_ip :
    init = .done baseCmd ∧
    ParseFlags (some []) (baseCmd.Set nodeStoreFlag "/tmp/x")
      = .done (some [(.storePathKey, .str "/tmp/x")], none) ∧
    StorePath [(.storePathKey, .str "/tmp/x")] = .done "/tmp/x" ∧
    ParseCoreConfig [(.storePathKey, .str "/tmp/x")] = .panic ∧
    ∀ w : World, main w (baseCmd.Set nodeStoreFlag "/tmp/x") = .panic := by
  refine ⟨by decide, by decide, by decide, by decide, ?_⟩
  intro w
  have hp : PersistentPreRunEnv { baseCmd.Set nodeStoreFlag "/tmp/x" with ctx := some [] }
      = .done ({ baseCmd.Set nodeStoreFlag "/tmp/x" with
          ctx := some [(.storePathKey, .str "/tmp/x")] }, none) := by decide
  simp only [main, run, hp, SubmitRunE]
  have hs : StorePath [(.storePathKey, .str "/tmp/x")] = .done "/tmp/x" := by decide
  have hc : ParseCoreConfig [(.storePathKey, .str "/tmp/x")] = .panic := by decide
  simp only [hs, hc]
  cases w.keyringNew "/tmp/x" <;> rfl

/-- C7: from an empty `pflag.CommandLine`, the set `NodeFlags` returns declares
node.store, core.ip, core.rpc.port and core.grpc.port with their defaults and
has neither blob.namespace nor blob.data; these two are defined, with their
defaults, on `pflag.CommandLine`. -/
theorem NodeFlags_blob_flags_on_CommandLine :
    ∃ flags commandLine, NodeFlags FlagSet.empty = .done (flags, commandLine) ∧
      flags.Lookup blobNamespaceFlag = none ∧ flags.Lookup blobDataFlag = none ∧
      commandLine.Lookup blobNamespaceFlag
        = some ⟨"blob.namespace", "1234567890", "1234567890", false⟩ ∧
      commandLine.Lookup blobDataFlag = some ⟨"blob.data", "some data", "some data", false⟩ ∧
      flags.Lookup nodeStoreFlag = some ⟨"node.store", "", "", false⟩ ∧
      flags.Lookup coreFlag = some ⟨"core.ip", "", "", false⟩ ∧
      flags.Lookup coreRPCFlag = some ⟨"core.rpc.port", "26657", "26657", false⟩ ∧
      flags.Lookup coreGRPCFlag = some ⟨"core.grpc.port", "9090", "9090", false⟩ :=
  ⟨baseCmd.flags, baseCmd.parentsPflags, by decide, by decide, by decide, by decide, by decide,
    by decide, by decide, by decide, by decide⟩

/-! ## The submission flow -/

/-- The flow returns no error exactly when each of its five calls succeeds. -/
theorem DemoSubmitData_ok_iff (w : World) (grpcAddr : String) (kr : Keyring) (ns : Namespace)
    (blob : Blob) :
    (DemoSubmitData w grpcAddr kr ns blob).2 = none ↔
      ∃ conn rec addr signer resp, w.Dial grpcAddr = .ok conn ∧
        w.Key kr "my_celes_key" = .ok rec ∧ w.GetAddress rec = .ok addr ∧
        w.SetupSigner kr conn addr = .ok signer ∧
        w.SubmitPayForBlob signer [blob] (gasLimit w.DefaultEstimateGas blob.Data.length)
          = .ok resp := by
  simp only [DemoSubmitData, DemoSubmitData.afterDial]
  repeat' split
  all_goals simp_all

/-- C5: when `SubmitPayForBlob` returns a response and no error, `DemoSubmitData`
returns a nil error whatever the code of the response is, and it prints exactly
when the code is not 0, and then the code, codespace and raw log of the
response. -/
theorem DemoSubmitData_response_code_no_error (w : World) (grpcAddr : String) (kr : Keyring)
    (ns : Namespace) (blob : Blob) (conn : Conn) (rec : Record) (addr : Address)
    (signer : Signer) (resp : TxResponse)
    (hd : w.Dial grpcAddr = .ok conn) (hk : w.Key kr "my_celes_key" = .ok rec)
    (ha : w.GetAddress rec = .ok addr) (hsg : w.SetupSigner kr conn addr = .ok signer)
    (hsub : w.SubmitPayForBlob signer [blob] (gasLimit w.DefaultEstimateGas blob.Data.length)
      = .ok resp) :
    (DemoSubmitData w grpcAddr kr ns blob).2 = none ∧
    (∀ code codespace rawLog,
      Event.println code codespace rawLog ∈ (DemoSubmitData w grpcAddr kr ns blob).1 ↔
        resp.Code ≠ 0 ∧ code = resp.Code ∧ codespace = resp.Codespace ∧
          rawLog = resp.RawLog) := by
  simp only [DemoSubmitData, hd, DemoSubmitData.afterDial, hk, ha, hsg, hsub]
  refine ⟨trivial, ?_⟩
  intro code codespace rawLog
  by_cases hc : resp.Code = 0 <;> simp [hc]

/-- C5 at a response with code 5: no error is returned, and the code is printed. -/
theorem DemoSubmitData_response_code_no_error_witness :
    (DemoSubmitData okWorld "1.2.3.4:9090" ⟨0⟩ ⟨0, []⟩ sampleBlob).2 = none ∧
    (∀ code codespace rawLog,
      Event.println code codespace rawLog
          ∈ (DemoSubmitData okWorld "1.2.3.4:9090" ⟨0⟩ ⟨0, []⟩ sampleBlob).1 ↔
        (5 : Nat) ≠ 0 ∧ code = 5 ∧ codespace = "sdk" ∧ rawLog = "insufficient fee") :=
  DemoSubmitData_response_code_no_error okWorld "1.2.3.4:9090" ⟨0⟩ ⟨0, []⟩ sampleBlob ⟨0⟩ ⟨0⟩
    ⟨[]⟩ ⟨0⟩ ⟨5, "sdk", "insufficient fee"⟩ rfl rfl rfl rfl rfl

/-- C8: when `grpc.Dial` succeeds, on every path of `DemoSubmitData` the events
hold exactly one closing of a connection, that of the connection dialed, and it
is the last event; the dial is the first event, and a signer is set up only
after it, before the closing, and on the connection dialed. -/
theorem DemoSubmitData_conn_closed_once (w : World) (grpcAddr : String) (kr : Keyring)
    (ns : Namespace) (blob : Blob) (conn : Conn) (hd : w.Dial grpcAddr = .ok conn) :
    ((DemoSubmitData w grpcAddr kr ns blob).1.filter Event.isConnClose = [.connClose conn]) ∧
    (DemoSubmitData w grpcAddr kr ns blob).1.getLast? = some (.connClose conn) ∧
    (DemoSubmitData w grpcAddr kr ns blob).1.head? = some (.dial grpcAddr) ∧
    (∀ i kr' conn' addr,
      (DemoSubmitData w grpcAddr kr ns blob).1[i]? = some (.setupSigner kr' conn' addr) →
      0 < i ∧ i + 1 < (DemoSubmitData w grpcAddr kr ns blob).1.length ∧ conn' = conn) := by
  simp only [DemoSubmitData, hd, DemoSubmitData.afterDial]
  split
  · simp [Event.isConnClose]
    intro i kr' conn' addr h
    rcases i with _|_|_|_ <;> simp at h
  · split
    · simp [Event.isConnClose]
      intro i kr' conn' addr h
      rcases i with _|_|_|_|_ <;> simp at h
    · split
      · simp [Event.isConnClose]
        intro i kr' conn' addr h
        rcases i with _|_|_|_|_|_ <;> simp at h
        simp [h]
      · split
        · simp [Event.isConnClose]
          intro i kr' conn' addr h
          rcases i with _|_|_|_|_|_|_ <;> simp at h
          simp [h]
        · split <;>
          · simp [Event.isConnClose]
            intro i kr' conn' addr h
            rcases i with _|_|_|_|_|_|_|_|_ <;> simp at h
            simp [h]

/-- C8 where the key lookup fails after the dial: the connection is closed. -/
theorem DemoSubmitData_conn_closed_once_witness :
    (DemoSubmitData noKeyWorld "1.2.3.4:9090" ⟨0⟩ ⟨0, []⟩ sampleBlob).1.filter Event.isConnClose
      = [.connClose ⟨0⟩] :=
  (DemoSubmitData_conn_closed_once noKeyWorld "1.2.3.4:9090" ⟨0⟩ ⟨0, []⟩ sampleBlob ⟨0⟩ rfl).1

/-- C10: when dialing, the key lookup, the address or the signer setup fails,
`DemoSubmitData` returns that error and makes no call of `SubmitPayForBlob`; on
every path it calls `SubmitPayForBlob` at most once, and with the list of the
one blob it was given. -/
theorem DemoSubmitData_aborts_on_error (w : World) (grpcAddr : String) (kr : Keyring)
    (ns : Namespace) (blob : Blob) :
    (∀ e, w.Dial grpcAddr = .error e →
      (DemoSubmitData w grpcAddr kr ns blob).2 = some e ∧
      (DemoSubmitData w grpcAddr kr ns blob).1.filter Event.isSubmit = []) ∧
    (∀ conn e, w.Dial grpcAddr = .ok conn → w.Key kr "my_celes_key" = .error e →
      (DemoSubmitData w grpcAddr kr ns blob).2 = some e ∧
      (DemoSubmitData w grpcAddr kr ns blob).1.filter Event.isSubmit = []) ∧
    (∀ conn rec e, w.Dial grpcAddr = .ok conn → w.Key kr "my_celes_key" = .ok rec →
      w.GetAddress rec = .error e →
      (DemoSubmitData w grpcAddr kr ns blob).2 = some e ∧
      (DemoSubmitData w grpcAddr kr ns blob).1.filter Event.isSubmit = []) ∧
    (∀ conn rec addr e, w.Dial grpcAddr = .ok conn → w.Key kr "my_celes_key" = .ok rec →
      w.GetAddress rec = .ok addr → w.SetupSigner kr conn addr = .error e →
      (DemoSubmitData w grpcAddr kr ns blob).2 = some e ∧
      (DemoSubmitData w grpcAddr kr ns blob).1.filter Event.isSubmit = []) ∧
    ((DemoSubmitData w grpcAddr kr ns blob).1.filter Event.isSubmit).length ≤ 1 ∧
    (∀ signer blobs gas,
      Event.submitPayForBlob signer blobs gas ∈ (DemoSubmitData w grpcAddr kr ns blob).1 →
      blobs = [blob]) := by
  refine ⟨?_, ?_, ?_, ?_, ?_, ?_⟩
  · intro e hd
    simp [DemoSubmitData, hd, Event.isSubmit]
  · intro conn e hd hk
    simp [DemoSubmitData, DemoSubmitData.afterDial, hd, hk, Event.isSubmit]
  · intro conn rec e hd hk ha
    simp [DemoSubmitData, DemoSubmitData.afterDial, hd, hk, ha, Event.isSubmit]
  · intro conn rec addr e hd hk ha hsg
    simp [DemoSubmitData, DemoSubmitData.afterDial, hd, hk, ha, hsg, Event.isSubmit]
  · simp only [DemoSubmitData, DemoSubmitData.afterDial]
    repeat' split
    all_goals simp [Event.isSubmit, List.filter]
  · simp only [DemoSubmitData, DemoSubmitData.afterDial]
    repeat' split
    all_goals
      intro signer blobs gas h
      simp at h
      try exact h.2.1

/-- C10 where the key lookup fails: its error is returned, nothing is submitted. -/
theorem DemoSubmitData_aborts_on_error_witness :
    (DemoSubmitData noKeyWorld "1.2.3.4:9090" ⟨0⟩ ⟨0, []⟩ sampleBlob).2 = some "key not found" ∧
    (DemoSubmitData noKeyWorld "1.2.3.4:9090" ⟨0⟩ ⟨0, []⟩ sampleBlob).1.filter Event.isSubmit
      = [] :=
  (DemoSubmitData_aborts_on_error noKeyWorld "1.2.3.4:9090" ⟨0⟩ ⟨0, []⟩ sampleBlob).2.1
    ⟨0⟩ "key not found" rfl rfl

/-! ## The gas limit -/

/-- The shares needed do not decrease with the length. -/
theorem SparseSharesNeeded_mono (a b : Nat) (h : a ≤ b) :
    SparseSharesNeeded a ≤ SparseSharesNeeded b := by
  unfold SparseSharesNeeded
  split_ifs <;> omega

/-- The gas estimate for one blob does not decrease with its size. -/
theorem DefaultEstimateGas_mono (a b : Nat) (h : a ≤ b) :
    DefaultEstimateGas [a] ≤ DefaultEstimateGas [b] := by
  have := SparseSharesNeeded_mono a b h
  simp [DefaultEstimateGas]
  omega

/-- C9, amended: for every estimate that does not decrease with the size of the
one blob, and all payload lengths `n ≤ m` below 2^32, the gas limit for `n` is
at most the gas limit for `m`. -/
theorem gasLimit_mono_below_uint32 (est : List Nat → Nat)
    (hest : ∀ a b, a ≤ b → est [a] ≤ est [b])
    (n m : Nat) (hnm : n ≤ m) (hm : m < 2 ^ 32) : gasLimit est n ≤ gasLimit est m := by
  unfold gasLimit
  apply hest
  rw [Nat.mod_eq_of_lt hm, Nat.mod_eq_of_lt (lt_of_le_of_lt hnm hm)]
  exact hnm

/-- C9, amended, at the lengths 478 and 479 with the estimate of the library. -/
theorem gasLimit_mono_below_uint32_witness :
    478 ≤ 479 ∧ 479 < 2 ^ 32 ∧
      gasLimit DefaultEstimateGas 478 ≤ gasLimit DefaultEstimateGas 479 :=
  ⟨by decide, by decide,
    gasLimit_mono_below_uint32 DefaultEstimateGas DefaultEstimateGas_mono 478 479
      (by decide) (by decide)⟩

/-- C9 fails as stated: a payload of 2^32 bytes is converted to the size 0, and
its gas limit, 75700, is below the gas limit 79796 of a payload of one byte. -/
theorem gasLimit_drops_at_uint32_wrap :
    1 ≤ 4294967296 ∧ gasLimit DefaultEstimateGas 1 = 79796 ∧
    gasLimit DefaultEstimateGas 4294967296 = 75700 ∧
    ¬ (gasLimit DefaultEstimateGas 1 ≤ gasLimit DefaultEstimateGas 4294967296) :=
  ⟨by decide, by decide, by decide, by decide⟩

/-! ## The exit code -/

/-- Setting the context of a command leaves its flags as they are. -/
theorem Command.Flag_ctx (cmd : Command) (c : Option Context) (name : String) :
    Command.Flag { cmd with ctx := c } name = cmd.Flag name := rfl

/-- An error of `ParseFlags` makes the process exit with code 1. -/
theorem main_of_ParseFlags_error (w : World) (cmd : Command) (c : Option Context) (err : Err)
    (h : ParseFlags (some []) cmd = .done (c, some err)) : main w cmd = .exit 1 := by
  have h' : ParseFlags (some []) { cmd with ctx := some [] } = .done (c, some err) := h
  simp only [main, run, PersistentPreRunEnv, h']

/-- After a successful `ParseFlags` the handler decides how the process ends. -/
theorem main_of_ParseFlags_ok (w : World) (cmd : Command) (ctx : Context)
    (h : ParseFlags (some []) cmd = .done (some ctx, none)) :
    main w cmd = match SubmitRunE w { cmd with ctx := some ctx } with
      | .panic => .panic
      | .done (_, some _) => .exit 1
      | .done (_, none) => .exit 0 := by
  have h' : ParseFlags (some []) { cmd with ctx := some [] } = .done (some ctx, none) := h
  simp only [main, run, PersistentPreRunEnv, h']

/-- C4, amended: on a submit command that has the six flags, the process exits
with code 1 when the configuration is refused (empty store path, or a port flag
changed with an empty core.ip). With a store path and a core.ip, it ends in a
panic when the key store cannot be opened, or the namespace or the blob cannot
be built; when these succeed, it exits with code 0 exactly when dialing, key
lookup, address, signer setup and submission all succeed, and with code 1
exactly when one of them fails. -/
theorem main_exit_code (w : World) (cmd : Command)
    (storeFl coreFl rpcFl grpcFl nsFl dataFl : Flag)
    (hs : cmd.Flag nodeStoreFlag = some storeFl) (hc : cmd.Flag coreFlag = some coreFl)
    (hr : cmd.Flag coreRPCFlag = some rpcFl) (hg : cmd.Flag coreGRPCFlag = some grpcFl)
    (hn : cmd.Flag blobNamespaceFlag = some nsFl) (hdt : cmd.Flag blobDataFlag = some dataFl) :
    ((storeFl.Value = "" ∨
        (coreFl.Value = "" ∧ (rpcFl.Changed = true ∨ grpcFl.Changed = true))) →
      main w cmd = .exit 1) ∧
    (storeFl.Value ≠ "" → coreFl.Value ≠ "" →
      ((∃ e, w.keyringNew storeFl.Value = .error e) → main w cmd = .panic) ∧
      (∀ ring, w.keyringNew storeFl.Value = .ok ring →
        (w.MustNewV0 (bytesOf nsFl.Value) = .panic → main w cmd = .panic) ∧
        (∀ ns, w.MustNewV0 (bytesOf nsFl.Value) = .done ns →
          ((∃ e, w.NewBlob ns (bytesOf dataFl.Value) = .error e) → main w cmd = .panic) ∧
          (∀ blob, w.NewBlob ns (bytesOf dataFl.Value) = .ok blob →
            (main w cmd = .exit 0 ↔
              ∃ conn rec addr signer resp,
                w.Dial (coreFl.Value ++ ":" ++ grpcFl.Value) = .ok conn ∧
                w.Key ring "my_celes_key" = .ok rec ∧ w.GetAddress rec = .ok addr ∧
                w.SetupSigner ring conn addr = .ok signer ∧
                w.SubmitPayForBlob signer [blob]
                  (gasLimit w.DefaultEstimateGas blob.Data.length) = .ok resp) ∧
            (main w cmd = .exit 1 ↔
              ¬ ∃ conn rec addr signer resp,
                w.Dial (coreFl.Value ++ ":" ++ grpcFl.Value) = .ok conn ∧
                w.Key ring "my_celes_key" = .ok rec ∧ w.GetAddress rec = .ok addr ∧
                w.SetupSigner ring conn addr = .ok signer ∧
                w.SubmitPayForBlob signer [blob]
                  (gasLimit w.DefaultEstimateGas blob.Data.length) = .ok resp))))) := by
  constructor
  · intro h
    have : ∃ c err, ParseFlags (some []) cmd = .done (c, some err) := by
      unfold ParseFlags
      simp only [hs, hc, hr, hg]
      by_cases h1 : storeFl.Value = "" <;> by_cases h2 : coreFl.Value = "" <;>
        by_cases h3 : grpcFl.Changed = true <;> by_cases h4 : rpcFl.Changed = true <;>
        simp_all
    obtain ⟨c, err, hpf⟩ := this
    exact main_of_ParseFlags_error w cmd c err hpf
  · intro h1 h2
    have hpf : ParseFlags (some []) cmd = .done (some (WithCoreConfig (WithStorePath [] storeFl.Value)
        ⟨coreFl.Value, rpcFl.Value, grpcFl.Value⟩), none) := by
      unfold ParseFlags
      simp only [hs, hc, hr, hg, h1, h2, if_false]
    have hsp : StorePath (WithCoreConfig (WithStorePath [] storeFl.Value)
        ⟨coreFl.Value, rpcFl.Value, grpcFl.Value⟩) = .done storeFl.Value := by
      simp [StorePath, WithCoreConfig, WithStorePath, Context.WithValue, Context.Value]
    have hcc : ParseCoreConfig (WithCoreConfig (WithStorePath [] storeFl.Value)
        ⟨coreFl.Value, rpcFl.Value, grpcFl.Value⟩)
        = .done ⟨coreFl.Value, rpcFl.Value, grpcFl.Value⟩ := by
      simp [ParseCoreConfig, WithCoreConfig, WithStorePath, Context.WithValue, Context.Value]
    rw [main_of_ParseFlags_ok w cmd _ hpf]
    simp only [SubmitRunE, hsp, hcc, Command.Flag_ctx, hn, hdt]
    refine ⟨?_, ?_⟩
    · rintro ⟨e, he⟩
      simp only [he]
    · intro ring hring
      simp only [hring]
      refine ⟨?_, ?_⟩
      · intro hp
        simp only [hp]
      · intro ns hns
        simp only [hns]
        refine ⟨?_, ?_⟩
        · rintro ⟨e, he⟩
          simp only [he]
        · intro blob hblob
          simp only [hblob]
          rw [← DemoSubmitData_ok_iff w (coreFl.Value ++ ":" ++ grpcFl.Value) ring ns blob]
          cases hres : (DemoSubmitData w (coreFl.Value ++ ":" ++ grpcFl.Value) ring ns blob) with
          | mk tr err =>
            cases err <;> simp

/-- C4, amended, at `--node.store=/tmp/x --core.ip=1.2.3.4` where every call
succeeds and the node answers with code 5: the process exits with code 0. -/
theorem main_exit_code_witness : main okWorld sampleCmd = .exit 0 :=
  ((((((main_exit_code okWorld sampleCmd
    ⟨"node.store", "", "/tmp/x", true⟩ ⟨"core.ip", "", "1.2.3.4", true⟩
    ⟨"core.rpc.port", "26657", "26657", false⟩ ⟨"core.grpc.port", "9090", "9090", false⟩
    ⟨"blob.namespace", "1234567890", "1234567890", false⟩
    ⟨"blob.data", "some data", "some data", false⟩
    (by decide) (by decide) (by decide) (by decide) (by decide) (by decide)).2
      (by decide) (by decide)).2 ⟨0⟩ rfl).2 ⟨0, bytesOf "1234567890"⟩ rfl).2
        ⟨bytesOf "1234567890", bytesOf "some data", 0⟩ rfl).1).mpr
    ⟨⟨0⟩, ⟨0⟩, ⟨[]⟩, ⟨0⟩, ⟨5, "sdk", "insufficient fee"⟩, rfl, rfl, rfl, rfl, rfl⟩

/-- C4 fails as stated: when the key store cannot be opened the handler calls
`panic`, and the process does not exit with code 1. -/
theorem main_panics_when_keyring_fails :
    noKeyringWorld.keyringNew "/tmp/x" = .error "cannot open the key store" ∧
    main noKeyringWorld sampleCmd = .panic ∧
    main noKeyringWorld sampleCmd ≠ .exit 1 :=
  ⟨rfl, by decide, by decide⟩

end Blobbit
